import Mathlib

/-!
Verification development for the EndogenAI vector-store adapter layer
(`shared/vector-store/python/src/endogenai_vector_store/`).

Shallow embedding of:
- `models.py`   — pydantic record/request/response models and their validators,
- `embedding.py` — the embedding pipeline (batching, provider wire shapes,
  tenacity retry loop),
- `qdrant.py`   — the Qdrant backend adapter (payload serialisation, the six
  data operations, the connected/disconnected state machine).

Machine floats carried by the code (scores, embedding components) are modelled
as rationals; vectors are lists of rationals.  External I/O (the embedding
provider, the Qdrant server) is modelled by explicit oracles / an explicit
server state, and each adapter operation also returns the list of I/O effects
it performed, in order.
-/

namespace EndogenVS

/-- An embedding vector (`list[float]` in the source). -/
abbrev Vec := List Rat

/-! ### models.py — enums and validators -/

/-- Embedding of `MemoryType` enum from `models.py`. -/
inductive MemoryType
  | working
  | shortTerm
  | longTerm
  | episodic
deriving DecidableEq, Repr

/-- Serialised string value of a `MemoryType` (the str-enum value). -/
def MemoryType.toStr : MemoryType → String
  | .working => "working"
  | .shortTerm => "short-term"
  | .longTerm => "long-term"
  | .episodic => "episodic"

/-- Embedding of `MemoryType(s)` — parse a string into the enum; `none` models the
`ValueError` raised on an unknown value. -/
def MemoryType.ofStr (s : String) : Option MemoryType :=
  if s = "working" then some .working
  else if s = "short-term" then some .shortTerm
  else if s = "long-term" then some .longTerm
  else if s = "episodic" then some .episodic
  else none

/-- Lowercase ASCII letter test, for the collection-name pattern. -/
def isLowerAlpha (c : Char) : Bool :=
  'a' ≤ c && c ≤ 'z'

/-- A character allowed after the first letter of the collection suffix:
`[a-z0-9-]`. -/
def isNameTail (c : Char) : Bool :=
  isLowerAlpha c || ('0' ≤ c && c ≤ '9') || c = '-'

/-- Embedding of `COLLECTION_NAME_RE` from `models.py`: `^brain\.[a-z][a-z0-9-]*$`. -/
def collectionNameOk (s : String) : Bool :=
  match s.toList with
  | 'b' :: 'r' :: 'a' :: 'i' :: 'n' :: '.' :: c :: rest =>
      isLowerAlpha c && rest.all isNameTail
  | _ => false

/-! ### models.py — MemoryItem -/

/-- String-keyed metadata map (`dict[str, Any]`), modelled as an association
list of string pairs. -/
abbrev Metadata := List (String × String)

/-- The rational one-half — the float default `0.5` of `importance_score`,
written in constructor form so it evaluates under kernel reduction. -/
def half : Rat := ⟨1, 2, by decide, by decide⟩

/-- Embedding of `MemoryItem` from `models.py`.  Field names follow the source; `Option`
fields are the ones typed `... | None` there. -/
structure MemoryItem where
  id : String
  collection_name : String
  content : String
  type : MemoryType
  source_module : String
  importance_score : Rat := half
  created_at : String
  updated_at : Option String := none
  expires_at : Option String := none
  access_count : Int := 0
  last_accessed_at : Option String := none
  metadata : Metadata := []
  tags : List String := []
  embedding : Option Vec := none
  embedding_model : Option String := none
  parent_id : Option String := none
  related_ids : List String := []
deriving DecidableEq, Repr

/-- The pydantic field constraints of `MemoryItem`: the `collection_name`
validator, `importance_score` with `ge=0.0, le=1.0`, and `access_count` with
`ge=0`.  The `content` field carries no constraint in the source. -/
def MemoryItem.Valid (m : MemoryItem) : Prop :=
  collectionNameOk m.collection_name = true ∧
    0 ≤ m.importance_score ∧ m.importance_score ≤ 1 ∧ 0 ≤ m.access_count

instance (m : MemoryItem) : Decidable m.Valid := by
  unfold MemoryItem.Valid; infer_instance

/-- Pydantic construction of a `MemoryItem`: runs the field validators and
returns the record, or `none` for the `ValidationError` raised on a violation. -/
def MemoryItem.validate (m : MemoryItem) : Option MemoryItem :=
  if m.Valid then some m else none

/-! ### qdrant.py — payload serialisation -/

/-- A Qdrant point payload: the `model_dump` of a `MemoryItem` minus `id` and
`embedding`, as a partial map — `none` means the key is absent from the dict. -/
structure Payload where
  collection_name : Option String := none
  content : Option String := none
  type : Option String := none
  source_module : Option String := none
  importance_score : Option Rat := none
  created_at : Option String := none
  updated_at : Option String := none
  expires_at : Option String := none
  access_count : Option Int := none
  last_accessed_at : Option String := none
  metadata : Option Metadata := none
  tags : Option (List String) := none
  embedding_model : Option String := none
  parent_id : Option String := none
  related_ids : Option (List String) := none
deriving DecidableEq, Repr

/-- Embedding of `_item_to_payload` from `qdrant.py`: dump all fields except `embedding`
and `id`, then drop `None`-valued entries (so an optional field that is `none`
is simply absent from the payload). -/
def item_to_payload (item : MemoryItem) : Payload :=
  { collection_name := some item.collection_name
    content := some item.content
    type := some item.type.toStr
    source_module := some item.source_module
    importance_score := some item.importance_score
    created_at := some item.created_at
    updated_at := item.updated_at
    expires_at := item.expires_at
    access_count := some item.access_count
    last_accessed_at := item.last_accessed_at
    metadata := some item.metadata
    tags := some item.tags
    embedding_model := item.embedding_model
    parent_id := item.parent_id
    related_ids := item.related_ids }

/-- Embedding of `_payload_to_item` from `qdrant.py`: rebuild a `MemoryItem` from a point
payload, with the `payload.get(key, default)` defaults of the source, running the
pydantic constructor (enum parse + validators).  `none` models the exception
raised on an invalid `type` string or a failed validation. -/
def payload_to_item (point_id : String) (p : Payload) (vector : Vec) :
    Option MemoryItem :=
  (MemoryType.ofStr (p.type.getD "working")).bind fun ty =>
    MemoryItem.validate
      { id := point_id
        collection_name := p.collection_name.getD "brain.unknown"
        content := p.content.getD ""
        type := ty
        source_module := p.source_module.getD ""
        importance_score := p.importance_score.getD half
        created_at := p.created_at.getD ""
        updated_at := p.updated_at
        expires_at := p.expires_at
        access_count := p.access_count.getD 0
        last_accessed_at := p.last_accessed_at
        metadata := p.metadata.getD []
        tags := p.tags.getD []
        embedding := some vector
        embedding_model := p.embedding_model
        parent_id := p.parent_id
        related_ids := p.related_ids.getD [] }

/-! ### embedding.py — configuration, errors, wire shapes -/

/-- The slice of `EmbeddingConfig` the pipeline logic uses.  `batch_size`
carries `Field(ge=1, le=512)` in the source; validity is stated separately. -/
structure EmbeddingConfig where
  model : String := "nomic-embed-text"
  batch_size : Nat := 32
  dimensions : Option Nat := none
deriving DecidableEq, Repr

/-- The pydantic bound `1 ≤ batch_size ≤ 512` on `EmbeddingConfig`. -/
def EmbeddingConfig.Valid (cfg : EmbeddingConfig) : Prop :=
  1 ≤ cfg.batch_size ∧ cfg.batch_size ≤ 512

instance (cfg : EmbeddingConfig) : Decidable cfg.Valid := by
  unfold EmbeddingConfig.Valid; infer_instance

/-- Embedding of `EmbeddingError` from `embedding.py`: message, provider identity and the
retryable flag. -/
structure EmbeddingError where
  message : String
  provider : String
  retryable : Bool
deriving DecidableEq, Repr

/-- Parsed body of an Ollama `/api/embed` response: either the nested
`{"embeddings": [[...], ...]}` shape, or the legacy flat single-vector
`{"embedding": [...]}` shape (`isinstance(embeddings[0], float)` in the
source distinguishes them). -/
inductive OllamaBody
  | nested (embeddings : List Vec)
  | flat (embedding : Vec)
deriving DecidableEq, Repr

/-- An HTTP response from the Ollama provider: status code plus parsed body. -/
structure OllamaResponse where
  status : Nat
  body : OllamaBody
deriving DecidableEq, Repr

/-- Embedding of `_embed_ollama` from `embedding.py`, as a function of the provider
response: non-200 raises with `retryable = status >= 500`; an empty
embeddings list raises with `retryable = False`; a flat single vector is
normalised into a one-element list. -/
def embed_ollama (resp : OllamaResponse) : Except EmbeddingError (List Vec) :=
  if resp.status ≠ 200 then
    .error { message := "Ollama embed failed", provider := "ollama",
             retryable := decide (500 ≤ resp.status) }
  else
    match resp.body with
    | .nested [] =>
        .error { message := "Ollama embed returned empty embeddings",
                 provider := "ollama", retryable := false }
    | .nested es => .ok es
    | .flat [] =>
        .error { message := "Ollama embed returned empty embeddings",
                 provider := "ollama", retryable := false }
    | .flat v => .ok [v]

/-- An HTTP response from an OpenAI-compatible `/v1/embeddings` endpoint:
status code plus the `data` array of `{index, embedding}` pairs. -/
structure OpenAiResponse where
  status : Nat
  data : List (Nat × Vec)
deriving DecidableEq, Repr

/-- Embedding of `_embed_openai_compatible` from `embedding.py`: non-200 raises with
`retryable = status >= 500`; otherwise the `data` pairs are sorted by their
`index` field and the embeddings are extracted in that order. -/
def embed_openai_compatible (provider : String) (resp : OpenAiResponse) :
    Except EmbeddingError (List Vec) :=
  if resp.status ≠ 200 then
    .error { message := "Embedding API failed", provider := provider,
             retryable := decide (500 ≤ resp.status) }
  else
    .ok (((resp.data.mergeSort fun a b => decide (a.1 ≤ b.1)).map fun x => x.2))

/-! ### embedding.py — tenacity retry loop

`_embed_batch` is decorated with
`retry(stop=stop_after_attempt(3), wait=wait_exponential(multiplier=0.5, min=0.5, max=10), reraise=True)`.
No `retry=` predicate is given, so the tenacity default applies: EVERY
exception triggers a retry until the attempt budget is spent, after which the
last exception is re-raised. -/

/-- Embedding of `wait_exponential(multiplier=0.5, min=0.5, max=10)`: the back-off slept
before retry `n` (seconds, as a rational), clamped into `[0.5, 10]`. -/
def backoffWait (attemptNumber : Nat) : Rat :=
  max (1/2) (min ((1/2) * 2 ^ attemptNumber) 10)

/-- The tenacity retry loop: `remaining` attempts left, the next attempt has
1-based index `k`; `call k` is the outcome of attempt `k`.  Returns the final
outcome together with the index of the last attempt actually made.  On the
last attempt an exception is re-raised (`reraise=True`); earlier attempts
retry after a back-off sleep — on ANY exception, the `retryable` flag of the
error notwithstanding. -/
def retryGo (call : Nat → Except EmbeddingError α) :
    Nat → Nat → Except EmbeddingError α × Nat
  | 0, k => (call k, k)
  | 1, k => (call k, k)
  | rem + 2, k =>
      match call k with
      | .ok v => (.ok v, k)
      | .error _ => retryGo call (rem + 1) (k + 1)

/-- Embedding of `stop_after_attempt(maxAttempts)` wrapper: run up to `maxAttempts`
attempts starting at attempt 1. -/
def run_with_retry (maxAttempts : Nat) (call : Nat → Except EmbeddingError α) :
    Except EmbeddingError α × Nat :=
  retryGo call maxAttempts 1

/-- Embedding of `_embed_batch` for the Ollama provider: the per-attempt provider response
is an oracle `resps : Nat → OllamaResponse`, and the decorated call retries
with `stop_after_attempt(3)`. -/
def embed_batch_ollama (resps : Nat → OllamaResponse) :
    Except EmbeddingError (List Vec) × Nat :=
  run_with_retry 3 fun k => embed_ollama (resps k)

/-! ### embedding.py — batching -/

/-- Fuel-indexed batching loop.  The fuel argument is only a structural bound
on the number of batches (`l.length` suffices whenever the batch size is
positive, which pydantic guarantees); it never cuts the computation short. -/
def chunksGo (bs : Nat) : Nat → List α → List (List α)
  | _, [] => []
  | 0, _ :: _ => []
  | fuel + 1, x :: xs => ((x :: xs).take bs) :: chunksGo bs fuel ((x :: xs).drop bs)

/-- Embedding of `[texts[i : i + bs] for i in range(0, len(texts), bs)]` from
`EmbeddingClient.embed`: split the input into consecutive batches of size
`bs` (the last one possibly shorter). -/
def chunks (bs : Nat) (l : List α) : List (List α) :=
  chunksGo bs l.length l

/-- Embedding of `EmbeddingClient.embed`, given the per-batch call semantics `callB`
(what `_embed_batch` returns for a batch on success): empty input yields `[]`
with no batch call; otherwise the input is split into sequential batches and
the per-batch vector lists are concatenated in order. -/
def embed_batches (bs : Nat) (callB : List String → List Vec)
    (texts : List String) : List Vec :=
  ((chunks bs texts).map callB).flatten

/-- Embedding of `EmbeddingClient.embed_one`: `embed([text])[0]`; `none` models the
`IndexError` were the pipeline to return an empty list. -/
def embed_one (bs : Nat) (callB : List String → List Vec) (text : String) :
    Option Vec :=
  (embed_batches bs callB [text]).head?

/-! ### embedding.py — client lifecycle

`connect` unconditionally builds a new `httpx.AsyncClient` and assigns it to
`self._http`; `close` closes and clears it; `embed` lazily connects only when
`self._http is None`.  Client objects are modelled by handle numbers drawn
from a freshness counter (each `httpx.AsyncClient(...)` evaluation yields a
brand-new object). -/

/-- The connection state of an `EmbeddingClient`: the current HTTP client
handle (`none` = `self._http is None`) and the fresh-handle supply. -/
structure EmbClientState where
  http : Option Nat := none
  nextHandle : Nat := 0
deriving DecidableEq, Repr

/-- Embedding of `EmbeddingClient.connect`: build a new HTTP client and store it —
unconditionally, with no already-connected guard. -/
def EmbClientState.connect (s : EmbClientState) : EmbClientState :=
  { http := some s.nextHandle, nextHandle := s.nextHandle + 1 }

/-- Embedding of `EmbeddingClient.close`: close and clear the client when present. -/
def EmbClientState.close (s : EmbClientState) : EmbClientState :=
  match s.http with
  | none => s
  | some _ => { s with http := none }

/-- The lazy-connect guard at the top of `EmbeddingClient.embed`:
`if self._http is None: await self.connect()`. -/
def EmbClientState.ensureConnected (s : EmbClientState) : EmbClientState :=
  match s.http with
  | none => s.connect
  | some _ => s

/-! ### interface.py / models.py — adapter error and request/response shapes -/

/-- Embedding of `AdapterError` from `interface.py`: message, backend identity, retryable
flag (default `False`). -/
structure AdapterError where
  message : String
  backend : String
  retryable : Bool := false
deriving DecidableEq, Repr

/-- Embedding of `UpsertRequest` (`items` carries `min_length=1` in the source; stated as a
hypothesis where a claim needs it). -/
structure UpsertRequest where
  collection_name : String
  items : List MemoryItem
deriving DecidableEq, Repr

/-- Embedding of `UpsertResponse`. -/
structure UpsertResponse where
  upserted_ids : List String
deriving DecidableEq, Repr

/-- Embedding of `QueryRequest` (`where` in the source is spelled `where_filter` here; the
optional full-text `where_document` filter is ignored by the Qdrant adapter). -/
structure QueryRequest where
  collection_name : String
  query_text : String
  n_results : Nat := 10
  where_filter : Option (List (String × String)) := none
deriving DecidableEq, Repr

/-- Embedding of `QueryResult`: a reconstructed item plus its similarity score. -/
structure QueryResult where
  item : MemoryItem
  score : Rat
deriving DecidableEq, Repr

/-- Embedding of `QueryResponse`. -/
structure QueryResponse where
  results : List QueryResult
deriving DecidableEq, Repr

/-- Embedding of `DeleteRequest` (`ids` carries `min_length=1`). -/
structure DeleteRequest where
  collection_name : String
  ids : List String
deriving DecidableEq, Repr

/-- Embedding of `DeleteResponse`. -/
structure DeleteResponse where
  deleted_ids : List String
deriving DecidableEq, Repr

/-- Embedding of `CreateCollectionRequest` (the `metadata` field is unused by the Qdrant
adapter). -/
structure CreateCollectionRequest where
  collection_name : String
deriving DecidableEq, Repr

/-- Embedding of `CreateCollectionResponse`. -/
structure CreateCollectionResponse where
  collection_name : String
  created : Bool
deriving DecidableEq, Repr

/-- Embedding of `DropCollectionRequest`. -/
structure DropCollectionRequest where
  collection_name : String
deriving DecidableEq, Repr

/-- Embedding of `DropCollectionResponse`. -/
structure DropCollectionResponse where
  collection_name : String
  dropped : Bool
deriving DecidableEq, Repr

/-- Embedding of `CollectionInfo` (the Qdrant adapter fills only `name`). -/
structure CollectionInfo where
  name : String
deriving DecidableEq, Repr

/-- Embedding of `ListCollectionsResponse`. -/
structure ListCollectionsResponse where
  collections : List CollectionInfo
deriving DecidableEq, Repr

/-! ### qdrant.py — server model and effects -/

/-- A stored Qdrant point: id, named vector (slot `"content"`), payload. -/
structure QPoint where
  id : String
  vector : Vec
  payload : Payload
deriving DecidableEq, Repr

/-- The Qdrant server state: an association list of collection name →
stored points. -/
structure QdrantServer where
  collections : List (String × List QPoint)
deriving DecidableEq, Repr

/-- Names of the collections on the server (what `get_collections` reports). -/
def QdrantServer.names (srv : QdrantServer) : List String :=
  srv.collections.map fun c => c.1

/-- The I/O effects an adapter operation can perform, in order: an embedding
call to the provider, or a Qdrant client call. -/
inductive Effect
  | embedTexts (texts : List String)
  | srvUpsert (collection : String) (points : List QPoint)
  | srvSearch (collection : String)
  | srvDelete (collection : String) (ids : List String)
  | srvGetCollections
  | srvCreateCollection (collection : String)
  | srvDeleteCollection (collection : String)
deriving DecidableEq, Repr

/-- The `AdapterError` raised by `QdrantAdapter._assert_connected` when
`self._client is None`. -/
def notConnectedError : AdapterError :=
  { message :=
      "QdrantAdapter is not connected — call connect() or use as async context manager."
    backend := "qdrant"
    retryable := false }

/-- The mutable fields of a `QdrantAdapter` instance: the client handle
(`none` = disconnected) and the cached vector dimensionality. -/
structure AdapterState where
  client : Option Unit := none
  vector_size : Option Nat := none
deriving DecidableEq, Repr

/-! ### qdrant.py — the six data operations

Each operation is a function of the adapter state, the server state and the
request, parameterised by the embedding-provider semantics `E` (the vector
the provider assigns to a text — one successful provider call per batch).
It returns the Python return value (or the raised `AdapterError`), the new
server state, and the ordered list of I/O effects performed.  Backend calls
are deterministic against the explicit server state; a call on a missing
collection raises, wrapped into `AdapterError` with the `retryable` flag the
source assigns at that call site. -/

/-- Embedding of `item.embedding = vector; item.embedding_model = model_name` — the
in-place mutation `upsert` performs on each input item. -/
def attachEmbedding (model_name : String) (p : MemoryItem × Vec) : MemoryItem :=
  { p.1 with embedding := some p.2, embedding_model := some model_name }

/-- Build the `PointStruct` for a mutated item (named vector slot
`"content"`, payload via `_item_to_payload`). -/
def toPoint (item : MemoryItem) : QPoint :=
  { id := item.id, vector := item.embedding.getD [], payload := item_to_payload item }

/-- Qdrant-side upsert semantics: replace points whose id collides, append
the rest (full replace, no partial merge). -/
def serverUpsertPoints (stored news : List QPoint) : List QPoint :=
  (stored.filter fun p => news.all fun q => q.id ≠ p.id) ++ news

/-- Apply an upsert to the server; `none` models the backend raising when the
collection does not exist. -/
def QdrantServer.upsertCall (srv : QdrantServer) (coll : String)
    (points : List QPoint) : Option QdrantServer :=
  if coll ∈ srv.names then
    some { collections :=
      srv.collections.map fun c =>
        if c.1 = coll then (c.1, serverUpsertPoints c.2 points) else c }
  else none

/-- Apply a point delete (`PointIdsList`) to the server: set-difference on
ids, absence of an id is not an error; `none` models the backend raising when
the collection does not exist. -/
def QdrantServer.deleteCall (srv : QdrantServer) (coll : String)
    (ids : List String) : Option QdrantServer :=
  if coll ∈ srv.names then
    some { collections :=
      srv.collections.map fun c =>
        if c.1 = coll then (c.1, c.2.filter fun p => p.id ∉ ids) else c }
  else none

/-- Embedding of `QdrantAdapter.upsert`: assert connected; embed the content of every item
(batched); attach vector and model name to each input item; build points;
write them; return the ids of the items of the request.  The returned
`List MemoryItem` is the `items` list of the request after the in-place mutation. -/
def QdrantAdapter.upsert (cfg : EmbeddingConfig) (E : String → Vec)
    (st : AdapterState) (srv : QdrantServer) (req : UpsertRequest) :
    Except AdapterError (UpsertResponse × List MemoryItem) × QdrantServer ×
      List Effect :=
  match st.client with
  | none => (.error notConnectedError, srv, [])
  | some _ =>
    let texts := req.items.map fun it => it.content
    let vectors := embed_batches cfg.batch_size (fun b => b.map E) texts
    let items2 := (req.items.zip vectors).map (attachEmbedding cfg.model)
    let points := items2.map toPoint
    match srv.upsertCall req.collection_name points with
    | none =>
        (.error { message := "Qdrant upsert failed", backend := "qdrant",
                  retryable := true },
         srv,
         [.embedTexts texts, .srvUpsert req.collection_name points])
    | some srv2 =>
        (.ok ({ upserted_ids := req.items.map fun it => it.id }, items2),
         srv2,
         [.embedTexts texts, .srvUpsert req.collection_name points])

/-- A raw hit returned by `client.search`: point id, payload, named-vector
map restricted to the `"content"` slot, and the score Qdrant computed. -/
structure Hit where
  id : String
  payload : Payload
  vector : Vec
  score : Rat
deriving DecidableEq, Repr

/-- The result-mapping comprehension in `QdrantAdapter.query`: each hit is
turned into a `QueryResult` via `_payload_to_item`, keeping `hit.score`
untouched; `none` models the exception propagating out of `MemoryItem(...)`
on an invalid payload. -/
def mapHits : List Hit → Option (List QueryResult)
  | [] => some []
  | hit :: rest =>
      match payload_to_item hit.id hit.payload hit.vector, mapHits rest with
      | some it, some rs => some ({ item := it, score := hit.score } :: rs)
      | _, _ => none

/-- Embedding of `QdrantAdapter.query`: assert connected; embed the query text; build the
filter; search (the ranked backend response is the oracle `searchHits`);
map hits into the uniform result shape — score passed through unchanged, no
re-sorting, no normalisation.  The outer `Option` is `none` only when a hit
payload fails reconstruction (an exception the source does not catch). -/
def QdrantAdapter.query (cfg : EmbeddingConfig) (E : String → Vec)
    (st : AdapterState) (searchHits : List Hit) (req : QueryRequest) :
    Option (Except AdapterError QueryResponse × List Effect) :=
  match st.client with
  | none => some (.error notConnectedError, [])
  | some _ =>
    match embed_one cfg.batch_size (fun b => b.map E) req.query_text with
    | none => none
    | some _qv =>
      (mapHits searchHits).map fun rs =>
        (.ok { results := rs },
         [.embedTexts [req.query_text], .srvSearch req.collection_name])

/-- Embedding of `QdrantAdapter.delete`: assert connected; issue the point delete; on
backend success return exactly the requested ids as `deleted_ids` — whether
or not any of them existed. -/
def QdrantAdapter.delete (st : AdapterState) (srv : QdrantServer)
    (req : DeleteRequest) :
    Except AdapterError DeleteResponse × QdrantServer × List Effect :=
  match st.client with
  | none => (.error notConnectedError, srv, [])
  | some _ =>
    match srv.deleteCall req.collection_name req.ids with
    | none =>
        (.error { message := "Qdrant delete failed", backend := "qdrant",
                  retryable := true },
         srv, [.srvDelete req.collection_name req.ids])
    | some srv2 =>
        (.ok { deleted_ids := req.ids }, srv2,
         [.srvDelete req.collection_name req.ids])

/-- Embedding of `QdrantAdapter._get_vector_size`: return the cached/configured size, or
probe the embedder with the sentinel `"probe"` and cache the result.  Returns
the size, the updated adapter state, and the effects performed. -/
def QdrantAdapter.get_vector_size (cfg : EmbeddingConfig) (E : String → Vec)
    (st : AdapterState) : Nat × AdapterState × List Effect :=
  match st.vector_size with
  | some n => (n, st, [])
  | none =>
      let n := (embed_one cfg.batch_size (fun b => b.map E) "probe").getD [] |>.length
      (n, { st with vector_size := some n }, [.embedTexts ["probe"]])

/-- Embedding of `QdrantAdapter.create_collection`: assert connected; list existing
collections; if the name exists return `created := false` with no further
backend call; otherwise resolve the vector size and create the collection. -/
def QdrantAdapter.create_collection (cfg : EmbeddingConfig) (E : String → Vec)
    (st : AdapterState) (srv : QdrantServer) (req : CreateCollectionRequest) :
    Except AdapterError CreateCollectionResponse × AdapterState ×
      QdrantServer × List Effect :=
  match st.client with
  | none => (.error notConnectedError, st, srv, [])
  | some _ =>
    if req.collection_name ∈ srv.names then
      (.ok { collection_name := req.collection_name, created := false },
       st, srv, [.srvGetCollections])
    else
      let probed := QdrantAdapter.get_vector_size cfg E st
      (.ok { collection_name := req.collection_name, created := true },
       probed.2.1,
       { collections := srv.collections ++ [(req.collection_name, [])] },
       [Effect.srvGetCollections] ++ probed.2.2 ++
         [Effect.srvCreateCollection req.collection_name])

/-- Embedding of `QdrantAdapter.drop_collection`: assert connected; list existing
collections; absent name → `dropped := false` with no delete call; otherwise
delete the collection. -/
def QdrantAdapter.drop_collection (st : AdapterState) (srv : QdrantServer)
    (req : DropCollectionRequest) :
    Except AdapterError DropCollectionResponse × QdrantServer × List Effect :=
  match st.client with
  | none => (.error notConnectedError, srv, [])
  | some _ =>
    if req.collection_name ∈ srv.names then
      (.ok { collection_name := req.collection_name, dropped := true },
       { collections := srv.collections.filter fun c => c.1 ≠ req.collection_name },
       [.srvGetCollections, .srvDeleteCollection req.collection_name])
    else
      (.ok { collection_name := req.collection_name, dropped := false },
       srv, [.srvGetCollections])

/-- Embedding of `QdrantAdapter.list_collections`: assert connected; report the collection
names. -/
def QdrantAdapter.list_collections (st : AdapterState) (srv : QdrantServer) :
    Except AdapterError ListCollectionsResponse × QdrantServer × List Effect :=
  match st.client with
  | none => (.error notConnectedError, srv, [])
  | some _ =>
      (.ok { collections := srv.names.map fun n => { name := n } }, srv,
       [.srvGetCollections])

/-! ### Helper lemmas -/

/-- Fuel-generic form of batch concatenation: with enough fuel, flattening
the batches recovers the input list. -/
theorem chunksGo_flatten (bs : Nat) (hbs : 0 < bs) :
    ∀ (fuel : Nat) (l : List α), l.length ≤ fuel →
      (chunksGo bs fuel l).flatten = l := by
  intro fuel
  induction fuel with
  | zero =>
      intro l hl
      have : l = [] := List.eq_nil_of_length_eq_zero (Nat.le_zero.mp hl)
      subst this
      rfl
  | succ n ih =>
      intro l hl
      cases l with
      | nil => rfl
      | cons x xs =>
          have hdrop : ((x :: xs).drop bs).length ≤ n := by
            simp only [List.length_drop, List.length_cons] at hl ⊢
            omega
          simp only [chunksGo, List.flatten_cons]
          rw [ih ((x :: xs).drop bs) hdrop, List.take_append_drop]

/-- Concatenating the batches recovers the input list (for a positive batch
size). -/
theorem chunks_flatten (bs : Nat) (hbs : 0 < bs) (l : List α) :
    (chunks bs l).flatten = l :=
  chunksGo_flatten bs hbs l.length l le_rfl

/-- When every per-batch call embeds its batch element-wise, the whole
pipeline is the element-wise map, independently of the batch boundaries. -/
theorem embed_batches_map (bs : Nat) (hbs : 0 < bs) (E : String → Vec)
    (callB : List String → List Vec) (hcall : ∀ b, callB b = b.map E)
    (texts : List String) :
    embed_batches bs callB texts = texts.map E := by
  unfold embed_batches
  rw [List.map_congr_left fun b _ => hcall b, ← List.map_flatten,
    chunks_flatten bs hbs]

/-- Sorting a permutation of an enumerated list by index recovers the
enumeration (indices are distinct), hence extracting the second components
recovers the original list. -/
theorem mergeSort_enum_recover (vs : List Vec) (data : List (Nat × Vec))
    (hperm : data.Perm vs.enum) :
    ((data.mergeSort fun a b => decide (a.1 ≤ b.1)).map fun x => x.2) = vs := by
  have hps : (data.mergeSort fun a b => decide (a.1 ≤ b.1)).Perm vs.enum :=
    (List.mergeSort_perm data _).trans hperm
  have hsorted := @List.sorted_mergeSort (Nat × Vec)
    (fun a b => decide (a.1 ≤ b.1))
    (fun a b c hab hbc => by
      simp only [decide_eq_true_eq] at hab hbc ⊢; omega)
    (fun a b => by
      simp only [Bool.or_eq_true, decide_eq_true_eq]; omega)
    data
  have hnd : ((data.mergeSort fun a b => decide (a.1 ≤ b.1)).map Prod.fst).Nodup := by
    refine (hps.map Prod.fst).nodup_iff.mpr ?_
    rw [List.enum_map_fst]
    exact List.nodup_range _
  have hne : (data.mergeSort fun a b => decide (a.1 ≤ b.1)).Pairwise
      fun a b : Nat × Vec => a.1 ≠ b.1 := List.pairwise_map.mp hnd
  have hlt : (data.mergeSort fun a b => decide (a.1 ≤ b.1)).Pairwise
      fun a b : Nat × Vec => a.1 < b.1 := by
    refine (hsorted.and hne).imp ?_
    rintro a b ⟨hab, hne'⟩
    simp only [decide_eq_true_eq] at hab
    omega
  have henum : vs.enum.Pairwise fun a b : Nat × Vec => a.1 < b.1 := by
    have : (vs.enum.map Prod.fst).Pairwise (· < ·) := by
      rw [List.enum_map_fst]
      exact List.pairwise_lt_range _
    exact List.pairwise_map.mp this
  haveI : IsAntisymm (Nat × Vec) (fun a b => a.1 < b.1) :=
    ⟨fun a b h1 h2 => absurd (Nat.lt_trans h1 h2) (Nat.lt_irrefl _)⟩
  have heq : (data.mergeSort fun a b => decide (a.1 ≤ b.1)) = vs.enum :=
    List.eq_of_perm_of_sorted hps hlt henum
  rw [heq]
  exact List.enum_map_snd vs

/-- The result-mapping in `query` keeps scores: whenever every hit
reconstructs, the produced score list equals the hit score list. -/
theorem mapHits_scores :
    ∀ (hits : List Hit) (l : List QueryResult), mapHits hits = some l →
      (l.map fun r => r.score) = hits.map fun h => h.score := by
  intro hits
  induction hits with
  | nil =>
      intro l hl
      simp only [mapHits, Option.some_inj] at hl
      subst hl
      rfl
  | cons hd tl ih =>
      intro l hl
      simp only [mapHits] at hl
      cases hitem : payload_to_item hd.id hd.payload hd.vector with
      | none => rw [hitem] at hl; simp at hl
      | some it =>
          rw [hitem] at hl
          cases htl : mapHits tl with
          | none => rw [htl] at hl; simp at hl
          | some rest =>
              rw [htl] at hl
              simp only [Option.some_inj] at hl
              subst hl
              simp only [List.map_cons]
              rw [ih rest htl]

/-- Resolving the vector size never touches the client handle. -/
theorem get_vector_size_client (cfg : EmbeddingConfig) (E : String → Vec)
    (st : AdapterState) :
    (QdrantAdapter.get_vector_size cfg E st).2.1.client = st.client := by
  cases h : st.vector_size <;> simp [QdrantAdapter.get_vector_size, h]

/-! ### Concrete fixtures for witnesses and counterexamples -/

/-- A valid sample item (mirrors the conformance-test fixtures). -/
def sampleItem : MemoryItem :=
  { id := "0199aaaa-0000-7000-8000-000000000001"
    collection_name := "brain.knowledge"
    content := "Hello EndogenAI"
    type := .working
    source_module := "tests"
    created_at := "2025-01-01T00:00:00Z" }

/-- A default embedding configuration (`batch_size = 32`). -/
def cfg0 : EmbeddingConfig := {}

/-- A concrete embedding-provider semantics: each text maps to the one-element
vector holding its length. -/
def E0 : String → Vec := fun t => [(t.length : Rat)]

/-- A connected adapter state. -/
def st0 : AdapterState := { client := some () }

/-- A server holding one empty collection. -/
def srv0 : QdrantServer := { collections := [("brain.knowledge", [])] }

/-- Zipping a list with its own element-wise image is the element-wise
pairing. -/
theorem zip_self_map (l : List α) (g : α → β) :
    l.zip (l.map g) = l.map fun a => (a, g a) := by
  induction l with
  | nil => rfl
  | cons a as ih => simp [ih]

/-! ### Claim theorems -/

/-- C8 (counterexample): the claim says a `MemoryItem` with empty content is
rejected at construction; in the code the `content` field carries no
constraint, so pydantic construction of an otherwise-valid item with
`content = ""` succeeds. -/
theorem memoryitem_empty_content_accepted_cex :
    MemoryItem.validate { sampleItem with content := "" } =
      some { sampleItem with content := "" } ∧
    ({ sampleItem with content := "" } : MemoryItem).content = "" := by
  constructor
  · rfl
  · rfl

/-- C8 (amended): `MemoryItem` construction synchronously enforces the
collection-name pattern, the `[0,1]` importance-score range and a
non-negative access count — but not non-emptiness of `content`: a
successfully constructed item may have empty content. -/
theorem memoryitem_validation_scope (m m' : MemoryItem)
    (h : MemoryItem.validate m = some m') :
    collectionNameOk m'.collection_name = true ∧
      0 ≤ m'.importance_score ∧ m'.importance_score ≤ 1 ∧
      0 ≤ m'.access_count ∧ m' = m := by
  unfold MemoryItem.validate at h
  split at h
  next hv =>
    injection h with h2
    subst h2
    exact ⟨hv.1, hv.2.1, hv.2.2.1, hv.2.2.2, rfl⟩
  next => cases h

/-- Witness for the C8 amended theorem at a concrete item. -/
theorem memoryitem_validation_scope_witness :
    collectionNameOk sampleItem.collection_name = true ∧
      0 ≤ sampleItem.importance_score ∧ sampleItem.importance_score ≤ 1 ∧
      0 ≤ sampleItem.access_count ∧ sampleItem = sampleItem :=
  memoryitem_validation_scope sampleItem sampleItem (by decide)

/-- C10: for a valid item, serialising to a Qdrant payload (which strips the
id, the embedding and all `None` fields) and reconstructing with a vector `v`
yields the same item with `embedding := some v`. -/
theorem payload_roundtrip (m : MemoryItem) (v : Vec) (h : m.Valid) :
    payload_to_item m.id (item_to_payload m) v =
      some { m with embedding := some v } := by
  have hty : MemoryType.ofStr m.type.toStr = some m.type := by
    cases m.type <;> rfl
  have hv : MemoryItem.Valid { m with embedding := some v } := h
  simp only [payload_to_item, item_to_payload, Option.getD_some, hty,
    Option.some_bind]
  unfold MemoryItem.validate
  rw [if_pos hv]

/-- Witness for C10 at a concrete item and vector. -/
theorem payload_roundtrip_witness :
    payload_to_item sampleItem.id (item_to_payload sampleItem) [3] =
      some { sampleItem with embedding := some [3] } :=
  payload_roundtrip sampleItem [3] (by decide)

/-- C9 (counterexample): after a first connect (handle 0 stored), a second
connect call does not leave the existing client in place: it stores a fresh
client (handle 1). -/
theorem connect_twice_replaces_client_cex :
    ((EmbClientState.connect {}).connect).http ≠ (EmbClientState.connect {}).http ∧
    (EmbClientState.connect {}).http = some 0 ∧
    ((EmbClientState.connect {}).connect).http = some 1 := by
  refine ⟨?_, rfl, rfl⟩
  simp [EmbClientState.connect]

/-- C9 (amended): a second `connect` while connected raises no error and
leaves the client connected, but it is not a no-op on the connection: it
replaces the stored HTTP client with a newly constructed one (the previous
client object is dropped unclosed).  The actual no-op guard lives in `embed`,
which lazily connects only when no client is present. -/
theorem connect_twice_no_error_but_new_client (s : EmbClientState) (k : Nat)
    (hconn : s.http = some k) (hfresh : k < s.nextHandle) :
    (s.connect).http = some s.nextHandle ∧
    (s.connect).http ≠ s.http ∧
    s.ensureConnected = s := by
  refine ⟨rfl, ?_, ?_⟩
  · rw [hconn]
    simp only [EmbClientState.connect, ne_eq, Option.some_inj]
    omega
  · simp [EmbClientState.ensureConnected, hconn]

/-- Witness for the C9 amended theorem at a once-connected state. -/
theorem connect_twice_no_error_but_new_client_witness :
    (({ http := some 0, nextHandle := 1 } : EmbClientState).connect).http =
      some ({ http := some 0, nextHandle := 1 } : EmbClientState).nextHandle ∧
    (({ http := some 0, nextHandle := 1 } : EmbClientState).connect).http ≠
      ({ http := some 0, nextHandle := 1 } : EmbClientState).http ∧
    ({ http := some 0, nextHandle := 1 } : EmbClientState).ensureConnected =
      { http := some 0, nextHandle := 1 } :=
  connect_twice_no_error_but_new_client
    { http := some 0, nextHandle := 1 } 0 rfl (by decide)

/-- C3 (code_bug evidence): the tenacity decorator on `_embed_batch` has no
retry predicate, so a permanent client-side failure (HTTP 400, mapped to
`EmbeddingError` with `retryable = false`) is still attempted 3 times before
being re-raised — not raised immediately as the claim states.  Server-side
failures (HTTP 503) are retried up to 3 attempts as claimed, a transient 503
recovering on the third attempt succeeds, success on the first attempt makes
exactly one call, and every back-off wait is clamped into `[0.5, 10]`
seconds. -/
theorem embed_batch_retries_client_errors :
    (embed_batch_ollama fun _ => { status := 400, body := .nested [[1]] }) =
      (.error { message := "Ollama embed failed", provider := "ollama",
                retryable := false }, 3) ∧
    (embed_batch_ollama fun _ => { status := 503, body := .nested [[1]] }) =
      (.error { message := "Ollama embed failed", provider := "ollama",
                retryable := true }, 3) ∧
    (embed_batch_ollama fun k =>
        if k < 3 then { status := 503, body := .nested [[1]] }
        else { status := 200, body := .nested [[1]] }) = (.ok [[1]], 3) ∧
    (embed_batch_ollama fun _ => { status := 200, body := .nested [[1]] }) =
      (.ok [[1]], 1) ∧
    (∀ n, (1/2 : Rat) ≤ backoffWait n ∧ backoffWait n ≤ 10) := by
  refine ⟨rfl, rfl, rfl, rfl, ?_⟩
  intro n
  constructor
  · exact le_max_left _ _
  · apply max_le
    · norm_num
    · exact min_le_right _ _

/-- C2: `embed` is order-preserving and length-preserving — given that each
per-batch provider call embeds its batch element-wise, the pipeline output is
the element-wise embedding of the input, regardless of how the input was
split into batches; and for the indexed (OpenAI-compatible) wire shape, a
provider response whose `{index, embedding}` pairs arrive in any order is
re-sorted by index, recovering the in-order vectors. -/
theorem embed_order_preserving (bs : Nat) (hbs : 0 < bs) (E : String → Vec)
    (callB : List String → List Vec) (hcall : ∀ b, callB b = b.map E)
    (texts : List String) :
    embed_batches bs callB texts = texts.map E ∧
    (embed_batches bs callB texts).length = texts.length ∧
    (∀ i : Nat, (embed_batches bs callB texts)[i]? = (texts[i]?).map E) ∧
    (∀ (provider : String) (vs : List Vec) (data : List (Nat × Vec)),
        data.Perm vs.enum →
        embed_openai_compatible provider { status := 200, data := data } =
          .ok vs) := by
  have h1 := embed_batches_map bs hbs E callB hcall texts
  refine ⟨h1, by rw [h1, List.length_map], ?_, ?_⟩
  · intro i
    rw [h1, List.getElem?_map]
  · intro provider vs data hperm
    unfold embed_openai_compatible
    rw [if_neg (by simp)]
    rw [mergeSort_enum_recover vs data hperm]

/-- Witness for C2: batch size 2 over three texts, and an indexed provider
response delivered out of order. -/
theorem embed_order_preserving_witness :
    embed_batches 2 (fun b => b.map E0) ["a", "bb", "ccc"] =
      (["a", "bb", "ccc"].map E0) ∧
    embed_openai_compatible "openai"
        { status := 200, data := [(1, [5]), (0, [4])] } = .ok [[4], [5]] := by
  have h := embed_order_preserving 2 (by decide) E0 (fun b => b.map E0)
    (fun b => rfl) ["a", "bb", "ccc"]
  exact ⟨h.1, h.2.2.2 "openai" [[4], [5]] [(1, [5]), (0, [4])] (by decide)⟩

/-- C7: every data operation invoked on a disconnected adapter
(`client = none`) fails immediately with the non-retryable not-connected
`AdapterError`: no embedding call, no backend call (empty effect list), the
server and adapter state untouched — and no implicit connect. -/
theorem disconnected_operations_fail_fast (cfg : EmbeddingConfig)
    (E : String → Vec) (st : AdapterState) (srv : QdrantServer)
    (requ : UpsertRequest) (hits : List Hit) (reqq : QueryRequest)
    (reqd : DeleteRequest) (reqc : CreateCollectionRequest)
    (reqdr : DropCollectionRequest) (hdisc : st.client = none) :
    QdrantAdapter.upsert cfg E st srv requ = (.error notConnectedError, srv, []) ∧
    QdrantAdapter.query cfg E st hits reqq = some (.error notConnectedError, []) ∧
    QdrantAdapter.delete st srv reqd = (.error notConnectedError, srv, []) ∧
    QdrantAdapter.create_collection cfg E st srv reqc =
      (.error notConnectedError, st, srv, []) ∧
    QdrantAdapter.drop_collection st srv reqdr = (.error notConnectedError, srv, []) ∧
    QdrantAdapter.list_collections st srv = (.error notConnectedError, srv, []) ∧
    notConnectedError.retryable = false := by
  obtain ⟨c, vs⟩ := st
  change c = none at hdisc
  subst hdisc
  exact ⟨rfl, rfl, rfl, rfl, rfl, rfl, rfl⟩

/-- Witness for C7 at a freshly constructed (never connected) adapter. -/
theorem disconnected_operations_fail_fast_witness :
    QdrantAdapter.upsert cfg0 E0 {} srv0
        { collection_name := "brain.knowledge", items := [sampleItem] } =
      (.error notConnectedError, srv0, []) ∧
    QdrantAdapter.query cfg0 E0 {} []
        { collection_name := "brain.knowledge", query_text := "q" } =
      some (.error notConnectedError, []) ∧
    QdrantAdapter.delete {} srv0
        { collection_name := "brain.knowledge", ids := ["x"] } =
      (.error notConnectedError, srv0, []) ∧
    QdrantAdapter.create_collection cfg0 E0 {} srv0
        { collection_name := "brain.knowledge" } =
      (.error notConnectedError, {}, srv0, []) ∧
    QdrantAdapter.drop_collection {} srv0
        { collection_name := "brain.knowledge" } =
      (.error notConnectedError, srv0, []) ∧
    QdrantAdapter.list_collections {} srv0 =
      (.error notConnectedError, srv0, []) ∧
    notConnectedError.retryable = false :=
  disconnected_operations_fail_fast cfg0 E0 {} srv0
    { collection_name := "brain.knowledge", items := [sampleItem] } []
    { collection_name := "brain.knowledge", query_text := "q" }
    { collection_name := "brain.knowledge", ids := ["x"] }
    { collection_name := "brain.knowledge" }
    { collection_name := "brain.knowledge" } rfl

/-- C5: on a connected adapter whose backend delete call succeeds (the
collection exists), `delete` returns exactly the requested ids as
`deleted_ids` — with no hypothesis that any of those ids were ever upserted:
absence of a target point is not an error and the id is still reported
deleted. -/
theorem delete_lenient_returns_requested_ids (st : AdapterState)
    (srv : QdrantServer) (req : DeleteRequest) (hconn : st.client = some ())
    (_hne : req.ids ≠ []) (hcoll : req.collection_name ∈ srv.names) :
    QdrantAdapter.delete st srv req =
      (.ok { deleted_ids := req.ids },
       { collections :=
          srv.collections.map fun c =>
            if c.1 = req.collection_name then
              (c.1, c.2.filter fun p => p.id ∉ req.ids)
            else c },
       [.srvDelete req.collection_name req.ids]) := by
  obtain ⟨c, vs⟩ := st
  change c = some () at hconn
  subst hconn
  unfold QdrantAdapter.delete QdrantServer.deleteCall
  rw [if_pos hcoll]

/-- Witness for C5: deleting a never-upserted id from an empty collection
still reports it deleted. -/
theorem delete_lenient_returns_requested_ids_witness :
    QdrantAdapter.delete st0 srv0
        { collection_name := "brain.knowledge", ids := ["ghost"] } =
      (.ok { deleted_ids := ["ghost"] },
       { collections :=
          srv0.collections.map fun c =>
            if c.1 = "brain.knowledge" then
              (c.1, c.2.filter fun p => p.id ∉ ["ghost"])
            else c },
       [.srvDelete "brain.knowledge" ["ghost"]]) :=
  delete_lenient_returns_requested_ids st0 srv0
    { collection_name := "brain.knowledge", ids := ["ghost"] }
    rfl (by decide) (by decide)

/-- C4: `create_collection` is idempotent on a connected adapter — a first
call on an absent name returns `created = true`; the immediately following
call on the now-existing name returns `created = false`, raises no exception,
issues no backend create call (its only effect is the existence check), and
leaves both the adapter state and the server unchanged. -/
theorem create_collection_idempotent (cfg : EmbeddingConfig)
    (E : String → Vec) (st : AdapterState) (srv : QdrantServer) (name : String)
    (hconn : st.client = some ()) (habsent : name ∉ srv.names) :
    ∃ st1 srv1 tr1,
      QdrantAdapter.create_collection cfg E st srv { collection_name := name } =
        (.ok { collection_name := name, created := true }, st1, srv1, tr1) ∧
      QdrantAdapter.create_collection cfg E st1 srv1 { collection_name := name } =
        (.ok { collection_name := name, created := false }, st1, srv1,
         [Effect.srvGetCollections]) := by
  obtain ⟨c, vs⟩ := st
  change c = some () at hconn
  subst hconn
  have hmem : name ∈ (QdrantServer.mk (srv.collections ++ [(name, [])])).names := by
    simp [QdrantServer.names]
  cases vs with
  | none =>
      refine ⟨⟨some (), some ((embed_one cfg.batch_size (fun b => b.map E)
                "probe").getD [] |>.length)⟩,
              ⟨srv.collections ++ [(name, [])]⟩,
              [Effect.srvGetCollections, Effect.embedTexts ["probe"],
               Effect.srvCreateCollection name], ?_, ?_⟩
      · unfold QdrantAdapter.create_collection QdrantAdapter.get_vector_size
        simp only
        rw [if_neg habsent]
        rfl
      · unfold QdrantAdapter.create_collection
        simp only
        rw [if_pos hmem]
  | some n =>
      refine ⟨⟨some (), some n⟩, ⟨srv.collections ++ [(name, [])]⟩,
              [Effect.srvGetCollections, Effect.srvCreateCollection name],
              ?_, ?_⟩
      · unfold QdrantAdapter.create_collection QdrantAdapter.get_vector_size
        simp only
        rw [if_neg habsent]
        rfl
      · unfold QdrantAdapter.create_collection
        simp only
        rw [if_pos hmem]

/-- Witness for C4: creating `brain.memories` twice on an adapter with a
configured dimensionality and an initially empty server. -/
theorem create_collection_idempotent_witness :
    ∃ st1 srv1 tr1,
      QdrantAdapter.create_collection
          { cfg0 with dimensions := some 4 } E0
          { client := some (), vector_size := some 4 } { collections := [] }
          { collection_name := "brain.memories" } =
        (.ok { collection_name := "brain.memories", created := true },
         st1, srv1, tr1) ∧
      QdrantAdapter.create_collection
          { cfg0 with dimensions := some 4 } E0 st1 srv1
          { collection_name := "brain.memories" } =
        (.ok { collection_name := "brain.memories", created := false },
         st1, srv1, [Effect.srvGetCollections]) :=
  create_collection_idempotent { cfg0 with dimensions := some 4 } E0
    { client := some (), vector_size := some 4 } { collections := [] }
    "brain.memories" rfl (by decide)

/-- C1: a successful `upsert` on a connected adapter (positive batch size,
collection present so the backend write succeeds) embeds the content of
every item, attaches the resulting vector and the configured model name onto
each input item (the mutated `items` list is returned alongside the
response), and returns `upserted_ids` equal to exactly the ids of the
request items, in order. -/
theorem upsert_embeds_attaches_and_returns_ids (cfg : EmbeddingConfig)
    (E : String → Vec) (st : AdapterState) (srv : QdrantServer)
    (req : UpsertRequest) (hconn : st.client = some ())
    (hbs : 0 < cfg.batch_size) (_hne : req.items ≠ [])
    (hcoll : req.collection_name ∈ srv.names) :
    ∃ srv2,
      QdrantAdapter.upsert cfg E st srv req =
        (.ok ({ upserted_ids := req.items.map fun it => it.id },
              req.items.map fun it =>
                { it with embedding := some (E it.content),
                          embedding_model := some cfg.model }),
         srv2,
         [.embedTexts (req.items.map fun it => it.content),
          .srvUpsert req.collection_name
            ((req.items.map fun it =>
              { it with embedding := some (E it.content),
                        embedding_model := some cfg.model }).map toPoint)]) := by
  obtain ⟨c, vs⟩ := st
  change c = some () at hconn
  subst hconn
  have hvec : embed_batches cfg.batch_size (fun b => b.map E)
      (req.items.map fun it => it.content) =
      req.items.map fun it => E it.content := by
    rw [embed_batches_map cfg.batch_size hbs E _ fun b => rfl, List.map_map]
    rfl
  have hzip : (req.items.zip (embed_batches cfg.batch_size (fun b => b.map E)
        (req.items.map fun it => it.content))).map (attachEmbedding cfg.model) =
      req.items.map fun it =>
        { it with embedding := some (E it.content),
                  embedding_model := some cfg.model } := by
    rw [hvec, zip_self_map, List.map_map]
    rfl
  unfold QdrantAdapter.upsert
  simp only
  rw [hzip]
  unfold QdrantServer.upsertCall
  rw [if_pos hcoll]
  exact ⟨_, rfl⟩

/-- Witness for C1: one item upserted into an existing collection. -/
theorem upsert_embeds_attaches_and_returns_ids_witness :
    ∃ srv2,
      QdrantAdapter.upsert cfg0 E0 st0 srv0
          { collection_name := "brain.knowledge", items := [sampleItem] } =
        (.ok ({ upserted_ids := [sampleItem].map fun it => it.id },
              [sampleItem].map fun it =>
                { it with embedding := some (E0 it.content),
                          embedding_model := some cfg0.model }),
         srv2,
         [.embedTexts ([sampleItem].map fun it => it.content),
          .srvUpsert "brain.knowledge"
            (([sampleItem].map fun it =>
              { it with embedding := some (E0 it.content),
                        embedding_model := some cfg0.model }).map toPoint)]) :=
  upsert_embeds_attaches_and_returns_ids cfg0 E0 st0 srv0
    { collection_name := "brain.knowledge", items := [sampleItem] }
    rfl (by decide) (by decide) (by decide)

/-- A search hit whose payload is the serialisation of a given item. -/
def hitOf (it : MemoryItem) (v : Vec) (score : Rat) : Hit :=
  { id := it.id, payload := item_to_payload it, vector := v, score := score }

/-- A sample query request. -/
def reqQ0 : QueryRequest :=
  { collection_name := "brain.knowledge", query_text := "q" }

/-- C6 (counterexample): the claim says query results are always sorted by
non-increasing score with scores in `[0,1]` for any backend response the
adapter maps; in the code `hit.score` is passed through with no re-sorting
and no normalisation, so a backend response with an ascending, negative
score yields a successful response that is neither sorted non-increasingly
nor confined to `[0,1]`. -/
theorem query_no_sort_no_normalisation_cex :
    QdrantAdapter.query cfg0 E0 st0
        [hitOf sampleItem [1] (-half), hitOf sampleItem [1] half] reqQ0 =
      some (.ok { results :=
          [{ item := { sampleItem with embedding := some [1] }, score := -half },
           { item := { sampleItem with embedding := some [1] }, score := half }] },
        [.embedTexts ["q"], .srvSearch "brain.knowledge"]) ∧
    -half < 0 ∧ -half < half := by
  refine ⟨rfl, by decide, by decide⟩

/-- C6 (amended): the Qdrant adapter maps any backend search response into
the uniform result shape preserving hit order and passing every score
through unchanged — it performs no re-sorting and no normalisation, so
results are sorted by non-increasing score with all scores in `[0,1]`
exactly when the backend hit list already has those properties (Qdrant is
relied upon for the ordering; cosine scores are not clamped). -/
theorem query_preserves_backend_scores (cfg : EmbeddingConfig)
    (E : String → Vec) (st : AdapterState) (hits : List Hit)
    (req : QueryRequest) (rs : QueryResponse) (trace : List Effect)
    (hq : QdrantAdapter.query cfg E st hits req = some (.ok rs, trace)) :
    (rs.results.map fun r => r.score) = (hits.map fun h => h.score) ∧
    ((hits.map fun h => h.score).Pairwise (fun a b => b ≤ a) →
      (rs.results.map fun r => r.score).Pairwise fun a b => b ≤ a) ∧
    ((∀ h ∈ hits, 0 ≤ h.score ∧ h.score ≤ 1) →
      ∀ r ∈ rs.results, 0 ≤ r.score ∧ r.score ≤ 1) := by
  obtain ⟨c, vs⟩ := st
  obtain ⟨rsl⟩ := rs
  cases c with
  | none => simp [QdrantAdapter.query] at hq
  | some u =>
      unfold QdrantAdapter.query at hq
      simp only at hq
      cases hemb : embed_one cfg.batch_size (fun b => b.map E) req.query_text with
      | none => rw [hemb] at hq; cases hq
      | some qv =>
          rw [hemb] at hq
          cases hmh : mapHits hits with
          | none => rw [hmh] at hq; cases hq
          | some l =>
              rw [hmh] at hq
              simp only [Option.map_some', Option.some_inj, Prod.mk.injEq,
                Except.ok.injEq, QueryResponse.mk.injEq] at hq
              obtain ⟨hq1, _hq2⟩ := hq
              have h1 := mapHits_scores hits l hmh
              subst hq1
              refine ⟨h1, ?_, ?_⟩
              · intro hs
                rw [h1]
                exact hs
              · intro hb r hr
                have : r.score ∈ hits.map fun h => h.score := by
                  rw [← h1]
                  exact List.mem_map_of_mem _ hr
                obtain ⟨h, hh, hhs⟩ := List.mem_map.mp this
                rw [← hhs]
                exact hb h hh

/-- Concrete sorted single-hit backend response for the C6 witness. -/
def hits1 : List Hit := [hitOf sampleItem [1] half]

/-- The query response the adapter produces for `hits1`. -/
def rs1 : QueryResponse :=
  { results :=
      [{ item := { sampleItem with embedding := some [1] }, score := half }] }

/-- Witness for the C6 amended theorem on a concrete successful query. -/
theorem query_preserves_backend_scores_witness :
    (rs1.results.map fun r => r.score) = (hits1.map fun h => h.score) ∧
    ((hits1.map fun h => h.score).Pairwise (fun a b => b ≤ a) →
      (rs1.results.map fun r => r.score).Pairwise fun a b => b ≤ a) ∧
    ((∀ h ∈ hits1, 0 ≤ h.score ∧ h.score ≤ 1) →
      ∀ r ∈ rs1.results, 0 ≤ r.score ∧ r.score ≤ 1) :=
  query_preserves_backend_scores cfg0 E0 st0 hits1 reqQ0 rs1
    [.embedTexts ["q"], .srvSearch "brain.knowledge"] rfl

end EndogenVS
